import Mathlib

/-!
Verification development for the SewageMapAI repository (AnuranjanJain/Hackvortex).

The repository ships a React frontend (present in `src/`) and documents a
Flask/Python detection backend whose implementation files (`app.py`,
`segmentation.py`, `unet_model.py`) are not part of the provided sources;
only their documentation (`README.md`, the project documentation file) and
their frontend callers are.  Frontend behaviour is embedded directly from
the JavaScript sources; the detection engine is modelled from the
specification, as marked on each such definition.
-/

set_option maxRecDepth 4096

namespace SewageMapAI

/-! ## Frontend upload component (embedded from `UploadImage.js`, src/unnamed/part_001) -/

namespace Upload

/-- A browser `File` object as observed by `handleFileChange`: its declared
MIME type and its byte size (the fields the validation reads). -/
structure JsFile where
  mime : String
  size : Nat
  deriving DecidableEq, Repr

/-- The component state touched by `handleFileChange`/`handleSubmit`:
the `file`, `error` and `result` React state hooks. -/
structure UploadState where
  file : Option JsFile
  error : Option String
  result : Option String
  deriving DecidableEq, Repr

/-- `const validTypes = ['image/png', 'image/jpeg', 'image/jpg', 'image/tiff']` -/
def validTypes : List String := ["image/png", "image/jpeg", "image/jpg", "image/tiff"]

/-- `if (selectedFile.size > 50 * 1024 * 1024)` — the size limit in bytes. -/
def sizeLimit : Nat := 50 * 1024 * 1024

/-- `handleFileChange(selectedFile)` from `UploadImage.js` lines 25-51:
with a non-null file, reject (setting only `error`) when the declared MIME
type is not in `validTypes` or the size exceeds 50 * 1024 * 1024 bytes;
otherwise store the file, clear `error` and clear `result`.  (The async
preview generation touches no state read by `handleSubmit` and is omitted.) -/
def handleFileChange (selectedFile : Option JsFile) (s : UploadState) : UploadState :=
  match selectedFile with
  | none => s
  | some f =>
    if ¬ validTypes.contains f.mime then
      { s with error := some "Please select a valid image file (PNG, JPG, or TIFF)" }
    else if f.size > sizeLimit then
      { s with error := some "File size must be less than 50MB" }
    else
      { s with file := some f, error := none, result := none }

/-- `handleSubmit` posts `formData.append('file', file)` built from the stored
`file` state, and sends nothing when no file is stored: the value returned
here is the file attached to the `POST /upload-image` request, if any. -/
def handleSubmit (s : UploadState) : Option JsFile :=
  s.file

/-- A file passes `handleFileChange` validation. -/
def fileAccepted (f : JsFile) : Bool :=
  validTypes.contains f.mime && f.size ≤ sizeLimit

/-- Initial component state: `useState(null)` for file, error and result. -/
def initState : UploadState := ⟨none, none, none⟩

/-- Component state reached from `initState` by a sequence of file-selection
events (browse or drag-and-drop both funnel into `handleFileChange`). -/
def runEvents (events : List (Option JsFile)) : UploadState :=
  events.foldl (fun s ev => handleFileChange ev s) initState

end Upload

/-! ## Dashboard statistics (embedded from `Dashboard.js`, src/frontend) -/

namespace Dashboard

/-- A JavaScript number as produced by the dashboard arithmetic: a finite
value (kept exact as a rational; IEEE rounding is irrelevant to the
zero/infinity classification at issue), an infinity, or NaN. -/
inductive JSNum where
  | num (q : Rat)
  | posInf
  | negInf
  | nan
  deriving DecidableEq, Repr

/-- JavaScript division `a / b` on finite operands: finite quotient when
`b ≠ 0`, signed infinity when `b = 0` and `a ≠ 0`, NaN for `0 / 0`. -/
def jsDiv (a b : Rat) : JSNum :=
  if b ≠ 0 then .num (a / b)
  else if 0 < a then .posInf
  else if a < 0 then .negInf
  else .nan

/-- JavaScript multiplication of an intermediate value by the finite positive
literal `100`, as in `totalDemand / totalCapacity * 100`. -/
def jsMul100 : JSNum → JSNum
  | .num q => .num (q * 100)
  | .posInf => .posInf
  | .negInf => .negInf
  | .nan => .nan

/-- Whether a JavaScript number is finite (`Number.isFinite`). -/
def JSNum.isFinite : JSNum → Bool
  | .num _ => true
  | _ => false

/-- One entry of the `demands` array, with the two fields the statistics read. -/
structure Zone where
  demand_m3 : Rat
  capacity_m3 : Rat
  deriving DecidableEq, Repr

/-- `demands.reduce((sum, item) => sum + item.demand_m3, 0)` -/
def totalDemand (demands : List Zone) : Rat :=
  demands.foldl (fun sum item => sum + item.demand_m3) 0

/-- `demands.reduce((sum, item) => sum + item.capacity_m3, 0)` -/
def totalCapacity (demands : List Zone) : Rat :=
  demands.foldl (fun sum item => sum + item.capacity_m3) 0

/-- `Dashboard.js` line 21:
`const capacityUtilization = totalDemand > 0 ? (totalDemand / totalCapacity * 100) : 0;`
Note the guard tests `totalDemand`, not `totalCapacity`. -/
def capacityUtilization (demands : List Zone) : JSNum :=
  if 0 < totalDemand demands then
    jsMul100 (jsDiv (totalDemand demands) (totalCapacity demands))
  else
    .num 0

end Dashboard

/-! ## Detection engine (spec-modelled)

The backend detection engine (`app.py`, `models/segmentation.py`,
`models/unet_model.py`) is documented in the repository but its source is
not among the provided files; the definitions below are modelled from the
specification, §§3-7. -/

namespace Engine

/-- Modelled from the spec: the single named configuration object of §6
(color range, gradient threshold, morphological kernel size, noise floor,
cool-down duration). -/
structure Config where
  colorLo : Rat
  colorHi : Rat
  gradThreshold : Rat
  kernelSize : Nat
  noiseFloor : Rat
  cooldownTicks : Nat

/-- Modelled from the spec: the loaded network weights inside a
`ModelHandle` (the encoder-decoder internals are not in the sources; a
per-pixel affine scoring stands in for them). -/
structure Weights where
  scale : Rat
  offset : Rat
  deriving DecidableEq

/-- Modelled from the spec (§4.2): the causes of a model-load failure. -/
inductive LoadError where
  | missingArtifact
  | incompatibleRuntime
  | resourceExhaustion
  deriving DecidableEq

/-- Modelled from the spec: the ambient environment a request executes in.
The first four fields are what the pipeline's outcome may depend on (the
weight artifact and the injected failure modes of §7); `logEvents` and
`tick` are request-irrelevant ambient state (log sink, wall clock). -/
structure Env where
  weights : Weights
  loadFailure : Option LoadError
  inferFailure : Bool
  fallbackFailure : Option String
  logEvents : List String
  tick : Nat

/-- Modelled from the spec (§3): loaded weights plus initialized runtime
state, immutable after successful load. -/
structure ModelHandle where
  weights : Weights
  deriving DecidableEq

/-- Modelled from the spec (§7): the engine error taxonomy.  Only
`invalidImage` may reach the caller of `detect`. -/
inductive EngineError where
  | invalidImage (msg : String)
  | modelUnavailable
  | modelInference
  | postProcessing
  deriving DecidableEq

/-- Modelled from the spec (§3): the two detection strategies of the
`model_type` enum. -/
inductive Strategy where
  | PRIMARY
  | FALLBACK
  deriving DecidableEq

/-- Modelled from the spec (§3): a decoded, normalized pixel grid in
row-major order, values in `[0,1]`. -/
structure InputImage where
  height : Nat
  width : Nat
  pixels : List Rat
  deriving DecidableEq

/-- Modelled from the spec (§4.1): the leading container byte of a
supported format (PNG, JPEG, TIFF). -/
def supportedFormats : List Nat := [0x50, 0x4A, 0x54]

/-- Modelled from the spec (§4.1): image ingestion and normalization.
Decodes a byte payload to a pixel grid — a minimal concrete container
(format byte, height, width, then `height * width` intensity bytes) stands
in for the PNG/JPEG/TIFF decoders — failing on a zero-byte payload, an
unsupported format, or truncated/corrupt data, and normalizing intensities
to `[0,1]` by the fixed scale `1/255`. -/
def decodeImage : List Nat → Option InputImage
  | fmt :: h :: w :: pix =>
    if fmt ∈ supportedFormats ∧ 0 < h ∧ 0 < w ∧ pix.length = h * w ∧ pix.all (· ≤ 255) then
      some ⟨h, w, pix.map (fun (b : Nat) => (b : Rat) / 255)⟩
    else none
  | _ => none

/-- Modelled from the spec (§4.2): the load attempt, which fails exactly
when the environment's weight artifact is broken. -/
def loadModel (env : Env) : Except LoadError ModelHandle :=
  match env.loadFailure with
  | some e => .error e
  | none => .ok ⟨env.weights⟩

/-- Modelled from the spec (§4.2): `acquire() -> ModelHandle | null`; the
load failure is captured internally (plus a log event, not modelled) and
reported to the caller only as `none`. -/
def acquire (env : Env) : Option ModelHandle :=
  match loadModel env with
  | .ok h => some h
  | .error _ => none

/-- Clamp a score into the probability range `[0,1]`. -/
def clamp01 (x : Rat) : Rat := max 0 (min 1 x)

/-- Modelled from the spec (§4.3): `infer(tile, handle) -> ProbabilityMap`,
deterministic for fixed weights and input; the network is represented by a
per-pixel affine score through the handle's weights, squashed into `[0,1]`. -/
def infer (handle : ModelHandle) (img : InputImage) : List Rat :=
  img.pixels.map (fun p => clamp01 (handle.weights.scale * p + handle.weights.offset))

/-- Modelled from the spec (§4.3): a primary inference run, which raises
`ModelInferenceError` on a runtime failure of the environment. -/
def runPrimary (env : Env) (handle : ModelHandle) (img : InputImage) :
    Except EngineError (List Rat) :=
  if env.inferFailure then .error .modelInference else .ok (infer handle img)

/-- List lookup with a default, used by the window-based signals. -/
def getQ (l : List Rat) (i : Nat) : Rat := l.getD i 0

/-- Boolean list lookup at a possibly-negative index with a default, used
by the morphological window passes. -/
def getB (l : List Bool) (i : Int) (d : Bool) : Bool :=
  if h : 0 ≤ i ∧ i.toNat < l.length then l.get ⟨i.toNat, h.2⟩ else d

/-- Modelled from the spec (§4.4): color filtering — pixels inside the
configured color range. -/
def colorFilter (cfg : Config) (img : InputImage) : List Bool :=
  img.pixels.map (fun p => decide (cfg.colorLo ≤ p ∧ p ≤ cfg.colorHi))

/-- Modelled from the spec (§4.4): edge detection — gradient-magnitude
thresholding against the next pixel. -/
def edgeDetect (cfg : Config) (img : InputImage) : List Bool :=
  (List.range img.pixels.length).map (fun i =>
    decide (cfg.gradThreshold ≤ |getQ img.pixels (i + 1) - getQ img.pixels i|))

/-- Modelled from the spec (§4.4): geometric pattern analysis — an edge
pixel counts as locally linear when an adjacent pixel is also an edge,
suppressing isolated noise. -/
def geomPattern (cfg : Config) (img : InputImage) : List Bool :=
  let e := edgeDetect cfg img
  (List.range img.pixels.length).map (fun i =>
    e.getD i false && (e.getD (i - 1) false || e.getD (i + 1) false))

/-- Modelled from the spec (§4.4): statistical thresholding — an adaptive
threshold from the image's own intensity distribution (the mean). -/
def statThreshold (img : InputImage) : List Bool :=
  let mean := img.pixels.sum / img.pixels.length
  img.pixels.map (fun p => decide (mean ≤ p))

/-- Count how many of the four signal votes are set. -/
def voteCount (a b c d : Bool) : Nat :=
  (cond a 1 0) + (cond b 1 0) + (cond c 1 0) + (cond d 1 0)

/-- Modelled from the spec (§4.4): the four signals combined by a
consistent voting rule (the exact rule is an open question of §9; an
equal-weight vote scaled to `[0,1]` is used) into a
ProbabilityMap-compatible score grid. -/
def combineSignals (cfg : Config) (img : InputImage) : List Rat :=
  let cf := colorFilter cfg img
  let ed := edgeDetect cfg img
  let gp := geomPattern cfg img
  let st := statThreshold img
  (List.range img.pixels.length).map (fun i =>
    (voteCount (cf.getD i false) (ed.getD i false) (gp.getD i false) (st.getD i false) : Rat) / 4)

/-- The all-zero "no detection" score map over the image's extent. -/
def zeroMap (img : InputImage) : List Rat :=
  List.replicate img.pixels.length 0

/-- Modelled from the spec (§4.4): the fallible interior of the fallback
pipeline — the four-signal combination, which the environment may break. -/
def fallbackPipeline (cfg : Config) (env : Env) (img : InputImage) :
    Except String (List Rat) :=
  match env.fallbackFailure with
  | some e => .error e
  | none => .ok (combineSignals cfg img)

/-- Modelled from the spec (§4.4): the fallback heuristic detector, the
system's error-safety net — any internal failure degrades to the all-zero
"no detection" map instead of propagating. -/
def fallbackDetect (cfg : Config) (env : Env) (img : InputImage) : List Rat :=
  match fallbackPipeline cfg env img with
  | .ok m => m
  | .error _ => zeroMap img

/-- Modelled from the spec (§9): the explicit two-variant strategy
selection — primary when `acquire` yields a handle and inference does not
fail, fallback otherwise. -/
def selectStrategy (env : Env) : Strategy :=
  match acquire env with
  | some _ => if env.inferFailure then .FALLBACK else .PRIMARY
  | none => .FALLBACK

/-- Modelled from the spec (§§4.2-4.4): the score map the selected strategy
produces, the fallback absorbing both `acquire = none` and a per-request
`ModelInferenceError`. -/
def scoreMap (cfg : Config) (env : Env) (img : InputImage) : List Rat :=
  match acquire env with
  | some h =>
    match runPrimary env h img with
    | .ok m => m
    | .error _ => fallbackDetect cfg env img
  | none => fallbackDetect cfg env img

/-- Modelled from the spec (§4.5): thresholding — pixel set to 1 iff its
probability is ≥ the confidence threshold. -/
def thresholdMap (t : Rat) (pm : List Rat) : List Bool :=
  pm.map (fun p => decide (t ≤ p))

/-- Modelled from the spec (§4.5): one erosion pass over a 3-cell window
(missing neighbours at the border count as set, so the border is not eroded
for free). -/
def erode (m : List Bool) : List Bool :=
  (List.range m.length).map (fun (i : Nat) =>
    getB m ((i : Int) - 1) true && getB m (i : Int) true && getB m ((i : Int) + 1) true)

/-- Modelled from the spec (§4.5): one dilation pass over a 3-cell window. -/
def dilate (m : List Bool) : List Bool :=
  (List.range m.length).map (fun (i : Nat) =>
    getB m ((i : Int) - 1) false || getB m (i : Int) false || getB m ((i : Int) + 1) false)

/-- Modelled from the spec (§4.5): the morphological cleanup pass —
erosion to drop isolated noise then dilation to close small gaps, the
configurable kernel radius realised as the iteration count of the 3-cell
passes (the exact kernel size is an open question of §9). -/
def morphCleanup (k : Nat) (m : List Bool) : List Bool :=
  dilate^[k] (erode^[k] m)

/-- Modelled from the spec (§3): the `DetectionResult` record. -/
structure DetectionResult where
  sewage_lines_detected : Bool
  coverage_percentage : Rat
  detected_pixels : Nat
  total_pixels : Nat
  confidence_threshold : Rat
  model_type : Strategy
  deriving DecidableEq

/-- Modelled from the spec (§3): the `BinaryMask`, whose dimensions equal
the source image's. -/
structure BinaryMask where
  height : Nat
  width : Nat
  bits : List Bool
  deriving DecidableEq

/-- Number of set pixels of a binary mask. -/
def countDetected (m : List Bool) : Nat := m.countP id

/-- Modelled from the spec (§4.6): the detection result aggregator — count
the set pixels, compute the coverage percentage, and flag detection when
the count exceeds the configured noise floor fraction of the total. -/
def aggregate (cfg : Config) (t : Rat) (strat : Strategy) (mask : List Bool) :
    DetectionResult :=
  let detected := countDetected mask
  let total := mask.length
  { sewage_lines_detected := decide (cfg.noiseFloor * (total : Rat) < (detected : Rat))
    coverage_percentage := 100 * (detected : Rat) / (total : Rat)
    detected_pixels := detected
    total_pixels := total
    confidence_threshold := t
    model_type := strat }

/-- Modelled from the spec (§6): the public operation
`detect(image_bytes, confidence_threshold) -> (DetectionResult, BinaryMask)`,
failing only with `InvalidImageError`; every internal failure mode is
absorbed by the strategy selection and the fallback's degradation. -/
def detect (cfg : Config) (env : Env) (bytes : List Nat) (t : Rat) :
    Except EngineError (DetectionResult × BinaryMask) :=
  match decodeImage bytes with
  | none => .error (.invalidImage "malformed, corrupt, zero-byte, or unsupported-format input")
  | some img =>
    let mask := morphCleanup cfg.kernelSize (thresholdMap t (scoreMap cfg env img))
    .ok (aggregate cfg t (selectStrategy env) mask, ⟨img.height, img.width, mask⟩)

/-- The result-mask pair `detect` assembles for a decoded image. -/
def detectRun (cfg : Config) (env : Env) (img : InputImage) (t : Rat) :
    DetectionResult × BinaryMask :=
  (aggregate cfg t (selectStrategy env)
     (morphCleanup cfg.kernelSize (thresholdMap t (scoreMap cfg env img))),
   ⟨img.height, img.width, morphCleanup cfg.kernelSize (thresholdMap t (scoreMap cfg env img))⟩)

/-- Modelled from the spec (§4.2): the Model Availability Supervisor's
phases. -/
inductive SupPhase where
  | UNINITIALIZED
  | LOADING
  | READY
  | UNAVAILABLE
  deriving DecidableEq

/-- Modelled from the spec (§4.2): supervisor state — the phase plus the
cool-down ticks remaining before a retry out of `UNAVAILABLE` is permitted. -/
structure SupState where
  phase : SupPhase
  cooldown : Nat
  deriving DecidableEq

/-- Modelled from the spec (§4.2): the events driving the supervisor — the
guarded first call, the load outcome, the cool-down clock, and a retry
request. -/
inductive SupEvent where
  | firstCall
  | loadSucceeded
  | loadFailed
  | tick
  | retry
  deriving DecidableEq

/-- Modelled from the spec (§4.2): the supervisor's step function.
`UNINITIALIZED → LOADING` on the first call; `LOADING → READY` on success;
`LOADING → UNAVAILABLE` (arming the configured cool-down) on failure;
`READY` is stable; `UNAVAILABLE` counts its cool-down down on ticks and
permits one retry into `LOADING` only once the cool-down has elapsed. -/
def step (cfg : Config) (s : SupState) (e : SupEvent) : SupState :=
  match s.phase, e with
  | .UNINITIALIZED, .firstCall => ⟨.LOADING, s.cooldown⟩
  | .LOADING, .loadSucceeded => ⟨.READY, s.cooldown⟩
  | .LOADING, .loadFailed => ⟨.UNAVAILABLE, cfg.cooldownTicks⟩
  | .UNAVAILABLE, .tick => ⟨.UNAVAILABLE, s.cooldown - 1⟩
  | .UNAVAILABLE, .retry => if s.cooldown = 0 then ⟨.LOADING, 0⟩ else s
  | _, _ => s

/-- The transition edges the specification's state-machine graph admits
(self-loops included): `UNINITIALIZED → LOADING`, `LOADING → READY`,
`LOADING → UNAVAILABLE`, and the cool-down retry `UNAVAILABLE → LOADING`. -/
def allowedEdge (a b : SupPhase) : Prop :=
  a = b ∨
  (a = .UNINITIALIZED ∧ b = .LOADING) ∨
  (a = .LOADING ∧ b = .READY) ∨
  (a = .LOADING ∧ b = .UNAVAILABLE) ∨
  (a = .UNAVAILABLE ∧ b = .LOADING)

end Engine

/-! ## Documented upload response (embedded from the project documentation,
src/unnamed/part_000 lines 97-115, matching `README.md` lines 155-166) -/

namespace Docs

/-- The `detection_results` object of the documented `POST /upload-image`
response, with `model_type` as the wire-level string it carries. -/
structure DocDetectionResults where
  sewage_lines_detected : Bool
  coverage_percentage : Rat
  detected_pixels : Nat
  total_pixels : Nat
  confidence_threshold : Rat
  model_type : String
  deriving DecidableEq

/-- The documented `POST /upload-image` response envelope. -/
structure DocUploadResponse where
  success : Bool
  original_image : String
  segmentation_mask : String
  detection_results : DocDetectionResults
  dim_width : Nat
  dim_height : Nat
  deriving DecidableEq

/-- The successful response example documented for `POST /upload-image`
(project documentation lines 97-115): note `model_type` is the string
`"U-Net CNN"`. -/
def uploadImageResponseExample : DocUploadResponse :=
  { success := true
    original_image := "http://localhost:5000/uploads/image_123.png"
    segmentation_mask := "http://localhost:5000/uploads/image_123_mask.png"
    detection_results :=
      { sewage_lines_detected := true
        coverage_percentage := 245 / 100
        detected_pixels := 12845
        total_pixels := 524288
        confidence_threshold := 3 / 10
        model_type := "U-Net CNN" }
    dim_width := 1024
    dim_height := 512 }

end Docs

/-! ## Auxiliary relations and concrete sample values -/

namespace Engine

/-- Pointwise implication of mask bits: every pixel set in the first mask is
set in the second. -/
def bitLE (a b : Bool) : Prop := a = true → b = true

/-- Pointwise order on binary masks of equal extent. -/
def maskLE (m1 m2 : List Bool) : Prop := List.Forall₂ bitLE m1 m2

/-- A sample engine configuration (values in the documented ranges:
`CONFIDENCE_THRESHOLD = 0.3` etc. are request inputs, not part of this
object). -/
def sampleConfig : Config :=
  { colorLo := 2 / 5
    colorHi := 4 / 5
    gradThreshold := 1 / 10
    kernelSize := 1
    noiseFloor := 1 / 100
    cooldownTicks := 3 }

/-- A healthy environment: weights load, inference succeeds, the fallback
pipeline is intact. -/
def envOk : Env := ⟨⟨1, 0⟩, none, false, none, [], 0⟩

/-- The same environment with different ambient log and clock. -/
def envOkLater : Env := ⟨⟨1, 0⟩, none, false, none, ["startup"], 99⟩

/-- An environment whose model-load attempt fails. -/
def envLoadFail : Env := ⟨⟨1, 0⟩, some .missingArtifact, false, none, [], 0⟩

/-- An environment whose fallback pipeline suffers an internal failure. -/
def envFallbackFail : Env := ⟨⟨1, 0⟩, some .missingArtifact, false, some "signal failure", [], 0⟩

/-- A well-formed 1×2 sample payload: PNG tag, dimensions 1×2, intensities
255 and 0. -/
def sampleBytes : List Nat := [0x50, 1, 2, 255, 0]

/-- The decoded form of `sampleBytes`. -/
def sampleImage : InputImage := ⟨1, 2, [1, 0]⟩

/-- A truncated payload: PNG tag and 2×2 header but a single intensity
byte. -/
def truncatedBytes : List Nat := [0x50, 2, 2, 7]

/-- The binary mask `detect` produces for `sampleBytes` at threshold 3/10. -/
def sampleMask : BinaryMask := ⟨1, 2, [false, false]⟩

/-- The detection result for `sampleBytes` at threshold 3/10 in `envOk`. -/
def sampleResult : DetectionResult := ⟨false, 0, 0, 2, 3 / 10, .PRIMARY⟩

/-- The detection result for `sampleBytes` at threshold 3/10 in `envLoadFail`. -/
def fallbackSampleResult : DetectionResult := ⟨false, 0, 0, 2, 3 / 10, .FALLBACK⟩

end Engine

namespace Upload

/-- Every file the component state stores passed validation. -/
def stateFileValid (s : UploadState) : Prop :=
  ∀ f, s.file = some f → fileAccepted f = true

/-- A sample rejected file: wrong MIME type. -/
def badFile : JsFile := ⟨"text/plain", 3⟩

/-- A sample accepted file. -/
def goodFile : JsFile := ⟨"image/png", 1024⟩

end Upload

/-! ## Supporting lemmas -/

namespace Engine

theorem decode_wf {bytes : List Nat} {img : InputImage}
    (hd : decodeImage bytes = some img) :
    0 < img.height ∧ 0 < img.width ∧ img.pixels.length = img.height * img.width := by
  rcases bytes with _ | ⟨fmt, _ | ⟨h, _ | ⟨w, pix⟩⟩⟩ <;> simp only [decodeImage] at hd
  · exact Option.noConfusion hd
  · exact Option.noConfusion hd
  · exact Option.noConfusion hd
  · split at hd
    · rename_i hc
      obtain ⟨-, h1, h2, h3, -⟩ := hc
      obtain rfl := Option.some.inj hd
      exact ⟨h1, h2, by simpa using h3⟩
    · exact Option.noConfusion hd

theorem length_thresholdMap (t : Rat) (pm : List Rat) :
    (thresholdMap t pm).length = pm.length :=
  List.length_map _ _

theorem length_erode (m : List Bool) : (erode m).length = m.length := by
  rw [erode, List.length_map, List.length_range]

theorem length_dilate (m : List Bool) : (dilate m).length = m.length := by
  rw [dilate, List.length_map, List.length_range]

theorem length_erode_iter (k : Nat) (m : List Bool) :
    (erode^[k] m).length = m.length := by
  induction k generalizing m with
  | zero => rfl
  | succ n ih => rw [Function.iterate_succ_apply, ih, length_erode]

theorem length_dilate_iter (k : Nat) (m : List Bool) :
    (dilate^[k] m).length = m.length := by
  induction k generalizing m with
  | zero => rfl
  | succ n ih => rw [Function.iterate_succ_apply, ih, length_dilate]

theorem length_morphCleanup (k : Nat) (m : List Bool) :
    (morphCleanup k m).length = m.length := by
  rw [morphCleanup, length_dilate_iter, length_erode_iter]

theorem length_infer (h : ModelHandle) (img : InputImage) :
    (infer h img).length = img.pixels.length :=
  List.length_map _ _

theorem length_combineSignals (cfg : Config) (img : InputImage) :
    (combineSignals cfg img).length = img.pixels.length := by
  rw [combineSignals]
  rw [List.length_map, List.length_range]

theorem length_zeroMap (img : InputImage) : (zeroMap img).length = img.pixels.length :=
  List.length_replicate _ _

theorem length_fallbackDetect (cfg : Config) (env : Env) (img : InputImage) :
    (fallbackDetect cfg env img).length = img.pixels.length := by
  cases hf : env.fallbackFailure with
  | none => simp [fallbackDetect, fallbackPipeline, hf, length_combineSignals]
  | some e => simp [fallbackDetect, fallbackPipeline, hf, zeroMap]

theorem length_scoreMap (cfg : Config) (env : Env) (img : InputImage) :
    (scoreMap cfg env img).length = img.pixels.length := by
  cases ha : acquire env with
  | none => simp [scoreMap, ha, length_fallbackDetect]
  | some h =>
    cases hi : env.inferFailure with
    | false => simp [scoreMap, runPrimary, ha, hi, length_infer]
    | true => simp [scoreMap, runPrimary, ha, hi, length_fallbackDetect]

theorem detect_ok (cfg : Config) (env : Env) (bytes : List Nat) (t : Rat)
    {img : InputImage} (hd : decodeImage bytes = some img) :
    detect cfg env bytes t =
      .ok (aggregate cfg t (selectStrategy env)
            (morphCleanup cfg.kernelSize (thresholdMap t (scoreMap cfg env img))),
          ⟨img.height, img.width,
            morphCleanup cfg.kernelSize (thresholdMap t (scoreMap cfg env img))⟩) := by
  unfold detect
  rw [hd]

theorem detect_ok_run (cfg : Config) (env : Env) (bytes : List Nat) (t : Rat)
    {img : InputImage} (hd : decodeImage bytes = some img) :
    detect cfg env bytes t = .ok (detectRun cfg env img t) :=
  detect_ok cfg env bytes t hd

theorem detect_err (cfg : Config) (env : Env) (bytes : List Nat) (t : Rat)
    (hd : decodeImage bytes = none) :
    detect cfg env bytes t =
      .error (.invalidImage "malformed, corrupt, zero-byte, or unsupported-format input") := by
  unfold detect
  rw [hd]

theorem maskLE_count {m1 m2 : List Bool} (h : maskLE m1 m2) :
    countDetected m1 ≤ countDetected m2 := by
  induction h with
  | nil => exact le_refl _
  | cons hab _ ih =>
    rename_i a b l1 l2 _
    simp only [countDetected, List.countP_cons] at ih ⊢
    cases a with
    | false => cases b <;> simp <;> omega
    | true => rw [hab rfl] ; simp ; omega

theorem thresholdMap_antitone {t1 t2 : Rat} (h : t1 ≤ t2) (pm : List Rat) :
    maskLE (thresholdMap t2 pm) (thresholdMap t1 pm) := by
  induction pm with
  | nil => exact List.Forall₂.nil
  | cons p l ih =>
    refine List.Forall₂.cons ?_ ih
    intro hp
    simp only [decide_eq_true_eq] at hp ⊢
    exact le_trans h hp

theorem maskLE_getB {m1 m2 : List Bool} (h : maskLE m1 m2) (i : Int) (d : Bool) :
    bitLE (getB m1 i d) (getB m2 i d) := by
  intro hb
  rw [getB] at hb ⊢
  by_cases hc : 0 ≤ i ∧ i.toNat < m1.length
  · have hc2 : 0 ≤ i ∧ i.toNat < m2.length := ⟨hc.1, h.length_eq ▸ hc.2⟩
    rw [dif_pos hc] at hb
    rw [dif_pos hc2]
    obtain ⟨hlen, hget⟩ := List.forall₂_iff_get.mp h
    exact hget _ hc.2 hc2.2 hb
  · have hc2 : ¬ (0 ≤ i ∧ i.toNat < m2.length) := by
      rw [← h.length_eq] ; exact hc
    rw [dif_neg hc] at hb
    rw [dif_neg hc2]
    exact hb

theorem bitLE_and {a1 a2 b1 b2 c1 c2 : Bool}
    (ha : bitLE a1 a2) (hb : bitLE b1 b2) (hc : bitLE c1 c2) :
    bitLE (a1 && b1 && c1) (a2 && b2 && c2) := by
  intro h
  simp only [Bool.and_eq_true] at h ⊢
  exact ⟨⟨ha h.1.1, hb h.1.2⟩, hc h.2⟩

theorem bitLE_or {a1 a2 b1 b2 c1 c2 : Bool}
    (ha : bitLE a1 a2) (hb : bitLE b1 b2) (hc : bitLE c1 c2) :
    bitLE (a1 || b1 || c1) (a2 || b2 || c2) := by
  intro h
  simp only [Bool.or_eq_true] at h ⊢
  rcases h with (h | h) | h
  · exact Or.inl (Or.inl (ha h))
  · exact Or.inl (Or.inr (hb h))
  · exact Or.inr (hc h)

theorem forall₂_map_of_mem {α β : Type} {R : β → β → Prop} (l : List α) {f g : α → β}
    (h : ∀ x ∈ l, R (f x) (g x)) : List.Forall₂ R (l.map f) (l.map g) := by
  induction l with
  | nil => exact List.Forall₂.nil
  | cons a t ih =>
    exact List.Forall₂.cons (h a (by simp)) (ih (fun x hx => h x (by simp [hx])))

theorem erode_maskLE {m1 m2 : List Bool} (h : maskLE m1 m2) :
    maskLE (erode m1) (erode m2) := by
  rw [erode, erode, h.length_eq]
  exact forall₂_map_of_mem _ (fun i _ =>
    bitLE_and (maskLE_getB h _ _) (maskLE_getB h _ _) (maskLE_getB h _ _))

theorem dilate_maskLE {m1 m2 : List Bool} (h : maskLE m1 m2) :
    maskLE (dilate m1) (dilate m2) := by
  rw [dilate, dilate, h.length_eq]
  exact forall₂_map_of_mem _ (fun i _ =>
    bitLE_or (maskLE_getB h _ _) (maskLE_getB h _ _) (maskLE_getB h _ _))

theorem erode_iter_maskLE (k : Nat) {m1 m2 : List Bool} (h : maskLE m1 m2) :
    maskLE (erode^[k] m1) (erode^[k] m2) := by
  induction k generalizing m1 m2 with
  | zero => exact h
  | succ n ih =>
    rw [Function.iterate_succ_apply, Function.iterate_succ_apply]
    exact ih (erode_maskLE h)

theorem dilate_iter_maskLE (k : Nat) {m1 m2 : List Bool} (h : maskLE m1 m2) :
    maskLE (dilate^[k] m1) (dilate^[k] m2) := by
  induction k generalizing m1 m2 with
  | zero => exact h
  | succ n ih =>
    rw [Function.iterate_succ_apply, Function.iterate_succ_apply]
    exact ih (dilate_maskLE h)

theorem morphCleanup_maskLE (k : Nat) {m1 m2 : List Bool} (h : maskLE m1 m2) :
    maskLE (morphCleanup k m1) (morphCleanup k m2) := by
  rw [morphCleanup, morphCleanup]
  exact dilate_iter_maskLE k (erode_iter_maskLE k h)

theorem countDetected_threshold_antitone {t1 t2 : Rat} (h : t1 ≤ t2) (pm : List Rat) :
    countDetected (thresholdMap t2 pm) ≤ countDetected (thresholdMap t1 pm) :=
  maskLE_count (thresholdMap_antitone h pm)

theorem countDetected_morph_antitone {t1 t2 : Rat} (h : t1 ≤ t2) (k : Nat) (pm : List Rat) :
    countDetected (morphCleanup k (thresholdMap t2 pm)) ≤
      countDetected (morphCleanup k (thresholdMap t1 pm)) :=
  maskLE_count (morphCleanup_maskLE k (thresholdMap_antitone h pm))

theorem decode_sample : decodeImage sampleBytes = some sampleImage := by
  norm_num [decodeImage, sampleBytes, supportedFormats, sampleImage]

theorem aggregate_sample (t : Rat) (strat : Strategy) :
    aggregate sampleConfig t strat [false, false] = ⟨false, 0, 0, 2, t, strat⟩ := by
  norm_num [aggregate, countDetected, sampleConfig, List.countP_cons, List.countP_nil]

theorem morphCleanup_sample : morphCleanup sampleConfig.kernelSize [true, false] = [false, false] := by
  decide

theorem thresholdMap_sample : thresholdMap (3 / 10) [1, 0] = [true, false] := by
  norm_num [thresholdMap]

theorem scoreMap_sample_ok : scoreMap sampleConfig envOk sampleImage = [1, 0] := by
  norm_num [scoreMap, acquire, loadModel, envOk, runPrimary, infer, clamp01, sampleImage]

theorem sample_detect_run :
    detect sampleConfig envOk sampleBytes (3 / 10) = .ok (sampleResult, sampleMask) := by
  rw [detect_ok sampleConfig envOk sampleBytes (3 / 10) decode_sample]
  rw [scoreMap_sample_ok, thresholdMap_sample, morphCleanup_sample, aggregate_sample]
  rfl

theorem colorFilter_sample : colorFilter sampleConfig sampleImage = [false, false] := by
  norm_num [colorFilter, sampleConfig, sampleImage]

theorem edgeDetect_sample : edgeDetect sampleConfig sampleImage = [true, false] := by
  norm_num [edgeDetect, sampleConfig, sampleImage, getQ, List.range_succ]

theorem geomPattern_sample : geomPattern sampleConfig sampleImage = [true, false] := by
  simp only [geomPattern, edgeDetect_sample]
  norm_num [sampleImage, List.range_succ]

theorem statThreshold_sample : statThreshold sampleImage = [true, false] := by
  norm_num [statThreshold, sampleImage]

theorem combineSignals_sample : combineSignals sampleConfig sampleImage = [3 / 4, 0] := by
  simp only [combineSignals, colorFilter_sample, edgeDetect_sample, geomPattern_sample,
    statThreshold_sample]
  norm_num [voteCount, sampleImage, List.range_succ]

theorem scoreMap_sample_loadfail :
    scoreMap sampleConfig envLoadFail sampleImage = [3 / 4, 0] := by
  simp only [scoreMap, acquire, loadModel, envLoadFail, fallbackDetect, fallbackPipeline,
    combineSignals_sample]

theorem thresholdMap_sample_fallback : thresholdMap (3 / 10) [3 / 4, 0] = [true, false] := by
  norm_num [thresholdMap]

theorem sample_detect_run_loadfail :
    detect sampleConfig envLoadFail sampleBytes (3 / 10) = .ok (fallbackSampleResult, sampleMask) := by
  rw [detect_ok sampleConfig envLoadFail sampleBytes (3 / 10) decode_sample]
  rw [scoreMap_sample_loadfail, thresholdMap_sample_fallback, morphCleanup_sample, aggregate_sample]
  rfl

theorem sample_detect_run_seven :
    detect sampleConfig envOk sampleBytes (7 / 10) =
      .ok (⟨false, 0, 0, 2, 7 / 10, .PRIMARY⟩, sampleMask) := by
  rw [detect_ok sampleConfig envOk sampleBytes (7 / 10) decode_sample]
  rw [scoreMap_sample_ok]
  have hth : thresholdMap (7 / 10) [1, 0] = [true, false] := by norm_num [thresholdMap]
  rw [hth, morphCleanup_sample, aggregate_sample]
  rfl

end Engine

namespace Upload

theorem handleFileChange_preserves_valid {ev : Option JsFile} {s : UploadState}
    (hs : stateFileValid s) : stateFileValid (handleFileChange ev s) := by
  cases ev with
  | none => exact hs
  | some f =>
    by_cases hm : validTypes.contains f.mime
    · by_cases hsz : f.size > sizeLimit
      · intro g hg
        simp only [handleFileChange, hm, not_true_eq_false, if_false, hsz, if_true] at hg
        exact hs g hg
      · intro g hg
        simp only [handleFileChange, hm, not_true_eq_false, if_false, hsz, if_true] at hg
        obtain rfl := Option.some.inj hg.symm
        simp only [fileAccepted, hm, Bool.true_and, decide_eq_true_eq]
        omega
    · intro g hg
      simp only [handleFileChange, hm, not_false_eq_true, if_true] at hg
      exact hs g hg

theorem foldl_events_valid (events : List (Option JsFile)) (s0 : UploadState)
    (h0 : stateFileValid s0) :
    stateFileValid (events.foldl (fun s ev => handleFileChange ev s) s0) := by
  induction events generalizing s0 with
  | nil => exact h0
  | cons a t ih => exact ih _ (handleFileChange_preserves_valid h0)

theorem runEvents_valid (events : List (Option JsFile)) :
    stateFileValid (runEvents events) := by
  rw [runEvents]
  refine foldl_events_valid events initState ?_
  intro g hg
  exact Option.noConfusion hg

end Upload

end SewageMapAI

/-! ## Claim theorems -/

namespace SewageMapAI

namespace Engine

/-- C1: every call to `detect(image_bytes, confidence_threshold)` can fail
only with `InvalidImageError` — an error is returned exactly when the bytes
do not decode (malformed, corrupt, zero-byte, or unsupported-format input,
truncated bytes included), in which case no mask and no partial result is
produced, and for every decodable image every internal failure mode is
absorbed and a complete result-mask pair is returned. -/
theorem detect_fails_only_with_invalid_image (cfg : Config) (env : Env)
    (bytes : List Nat) (t : Rat) :
    (∀ e, detect cfg env bytes t = .error e →
      e = .invalidImage "malformed, corrupt, zero-byte, or unsupported-format input" ∧
      decodeImage bytes = none) ∧
    (decodeImage bytes = none →
      detect cfg env bytes t =
        .error (.invalidImage "malformed, corrupt, zero-byte, or unsupported-format input")) ∧
    (∀ img, decodeImage bytes = some img → ∃ r m, detect cfg env bytes t = .ok (r, m)) := by
  refine ⟨?_, ?_, ?_⟩
  · intro e he
    cases hd : decodeImage bytes with
    | none =>
      rw [detect_err cfg env bytes t hd] at he
      exact ⟨(Except.error.inj he).symm, rfl⟩
    | some img =>
      rw [detect_ok cfg env bytes t hd] at he
      exact absurd he (by simp)
  · intro hd
    exact detect_err cfg env bytes t hd
  · intro img hd
    exact ⟨_, _, detect_ok cfg env bytes t hd⟩

/-- Witness for C1: truncated bytes are rejected with `InvalidImageError`. -/
theorem detect_fails_only_with_invalid_image_witness :
    detect sampleConfig envOk truncatedBytes (3 / 10) =
      .error (.invalidImage "malformed, corrupt, zero-byte, or unsupported-format input") :=
  (detect_fails_only_with_invalid_image sampleConfig envOk truncatedBytes (3 / 10)).2.1
    (by norm_num [decodeImage, truncatedBytes, supportedFormats])

/-- C2 counterexample: the repository's own documented successful
`POST /upload-image` response carries `model_type = "U-Net CNN"`, which is
neither the literal string `"PRIMARY"` nor `"FALLBACK"`. -/
theorem documented_model_type_not_primary_or_fallback :
    Docs.uploadImageResponseExample.success = true ∧
    Docs.uploadImageResponseExample.detection_results.model_type ≠ "PRIMARY" ∧
    Docs.uploadImageResponseExample.detection_results.model_type ≠ "FALLBACK" := by
  refine ⟨rfl, ?_, ?_⟩ <;> decide

/-- C2 (amended): for every successful detection, the result's `model_type`
identifies the strategy actually executed for that request — it is the
primary marker exactly when a handle was acquired and inference did not
fail, independent of any nominal supervisor state — while its serialized
wire value is a descriptive string (the repository documents `"U-Net CNN"`
for the primary path), not the literal `"PRIMARY"`/`"FALLBACK"`. -/
theorem model_type_reflects_executed_strategy (cfg : Config) (env : Env)
    (bytes : List Nat) (t : Rat) (r : DetectionResult) (m : BinaryMask)
    (h : detect cfg env bytes t = .ok (r, m)) :
    r.model_type = selectStrategy env ∧
    (r.model_type = .PRIMARY ↔ acquire env ≠ none ∧ env.inferFailure = false) := by
  cases hd : decodeImage bytes with
  | none =>
    rw [detect_err cfg env bytes t hd] at h
    exact absurd h (by simp)
  | some img =>
    rw [detect_ok cfg env bytes t hd] at h
    simp only [Except.ok.injEq, Prod.mk.injEq] at h
    obtain ⟨hr, -⟩ := h
    subst hr
    refine ⟨rfl, ?_⟩
    show selectStrategy env = .PRIMARY ↔ acquire env ≠ none ∧ env.inferFailure = false
    cases ha : acquire env <;> cases hi : env.inferFailure <;>
      simp [selectStrategy, ha, hi]

/-- Witness for C2: the sample run in a healthy environment. -/
theorem model_type_reflects_executed_strategy_witness :
    sampleResult.model_type = selectStrategy envOk ∧
    (sampleResult.model_type = .PRIMARY ↔ acquire envOk ≠ none ∧ envOk.inferFailure = false) :=
  model_type_reflects_executed_strategy sampleConfig envOk sampleBytes (3 / 10)
    sampleResult sampleMask sample_detect_run

/-- C3: every `DetectionResult` produced from an accepted image satisfies
`detected_pixels ≤ total_pixels`, `total_pixels > 0`, and
`coverage_percentage = 100 × detected_pixels / total_pixels` (exactly, in
rational arithmetic, hence within any rounding tolerance). -/
theorem detection_result_arithmetic_invariant (cfg : Config) (env : Env)
    (bytes : List Nat) (t : Rat) (r : DetectionResult) (m : BinaryMask)
    (h : detect cfg env bytes t = .ok (r, m)) :
    r.detected_pixels ≤ r.total_pixels ∧ 0 < r.total_pixels ∧
    r.coverage_percentage = 100 * (r.detected_pixels : Rat) / (r.total_pixels : Rat) := by
  cases hd : decodeImage bytes with
  | none =>
    rw [detect_err cfg env bytes t hd] at h
    exact absurd h (by simp)
  | some img =>
    rw [detect_ok cfg env bytes t hd] at h
    simp only [Except.ok.injEq, Prod.mk.injEq] at h
    obtain ⟨hr, -⟩ := h
    subst hr
    obtain ⟨hh, hw, hlen⟩ := decode_wf hd
    refine ⟨List.countP_le_length _, ?_, rfl⟩
    show 0 < (morphCleanup cfg.kernelSize (thresholdMap t (scoreMap cfg env img))).length
    rw [length_morphCleanup, length_thresholdMap, length_scoreMap, hlen]
    exact Nat.mul_pos hh hw

/-- Witness for C3: the invariant at the sample run. -/
theorem detection_result_arithmetic_invariant_witness :
    sampleResult.detected_pixels ≤ sampleResult.total_pixels ∧
    0 < sampleResult.total_pixels ∧
    sampleResult.coverage_percentage =
      100 * (sampleResult.detected_pixels : Rat) / (sampleResult.total_pixels : Rat) :=
  detection_result_arithmetic_invariant sampleConfig envOk sampleBytes (3 / 10)
    sampleResult sampleMask sample_detect_run

/-- C4: thresholding is antitone in the confidence threshold — for a fixed
probability map, raising the threshold never increases the number of
detected pixels, at the raw thresholding stage (pixel set iff probability ≥
threshold), after the morphological cleanup, and in the `detected_pixels`
field of the full pipeline's results. -/
theorem detected_pixels_antitone_in_threshold (pm : List Rat) (k : Nat)
    (t1 t2 : Rat) (cfg : Config) (env : Env) (bytes : List Nat)
    (r1 : DetectionResult) (m1 : BinaryMask) (r2 : DetectionResult) (m2 : BinaryMask)
    (hle : t1 ≤ t2)
    (h1 : detect cfg env bytes t1 = .ok (r1, m1))
    (h2 : detect cfg env bytes t2 = .ok (r2, m2)) :
    countDetected (thresholdMap t2 pm) ≤ countDetected (thresholdMap t1 pm) ∧
    countDetected (morphCleanup k (thresholdMap t2 pm)) ≤
      countDetected (morphCleanup k (thresholdMap t1 pm)) ∧
    r2.detected_pixels ≤ r1.detected_pixels := by
  refine ⟨countDetected_threshold_antitone hle pm,
    countDetected_morph_antitone hle k pm, ?_⟩
  cases hd : decodeImage bytes with
  | none =>
    rw [detect_err cfg env bytes t1 hd] at h1
    exact absurd h1 (by simp)
  | some img =>
    rw [detect_ok cfg env bytes t1 hd] at h1
    rw [detect_ok cfg env bytes t2 hd] at h2
    simp only [Except.ok.injEq, Prod.mk.injEq] at h1 h2
    obtain ⟨hr1, -⟩ := h1
    obtain ⟨hr2, -⟩ := h2
    subst hr1
    subst hr2
    exact countDetected_morph_antitone hle cfg.kernelSize (scoreMap cfg env img)

/-- Witness for C4: thresholds 3/10 ≤ 7/10 on the sample run. -/
theorem detected_pixels_antitone_in_threshold_witness :
    countDetected (thresholdMap (7 / 10) [1, 0]) ≤ countDetected (thresholdMap (3 / 10) [1, 0]) ∧
    countDetected (morphCleanup 1 (thresholdMap (7 / 10) [1, 0])) ≤
      countDetected (morphCleanup 1 (thresholdMap (3 / 10) [1, 0])) ∧
    (⟨false, 0, 0, 2, 7 / 10, .PRIMARY⟩ : DetectionResult).detected_pixels ≤
      sampleResult.detected_pixels :=
  detected_pixels_antitone_in_threshold [1, 0] 1 (3 / 10) (7 / 10) sampleConfig envOk
    sampleBytes sampleResult sampleMask ⟨false, 0, 0, 2, 7 / 10, .PRIMARY⟩ sampleMask
    (by norm_num) sample_detect_run sample_detect_run_seven

/-- C5: the pipeline is deterministic — the outcome of `detect` depends only
on the bytes, the threshold, the model weights and the strategy-relevant
failure modes; environments differing in any other ambient state (log,
clock) produce identical results, so repeated calls with identical inputs
return identical `DetectionResult` values under either strategy. -/
theorem detect_deterministic (cfg : Config) (env1 env2 : Env) (bytes : List Nat) (t : Rat)
    (hw : env1.weights = env2.weights)
    (hl : env1.loadFailure = env2.loadFailure)
    (hi : env1.inferFailure = env2.inferFailure)
    (hf : env1.fallbackFailure = env2.fallbackFailure) :
    detect cfg env1 bytes t = detect cfg env2 bytes t := by
  obtain ⟨w1, l1, i1, f1, g1, k1⟩ := env1
  obtain ⟨w2, l2, i2, f2, g2, k2⟩ := env2
  cases hw
  cases hl
  cases hi
  cases hf
  rfl

/-- Witness for C5: two calls in environments differing only in log/clock. -/
theorem detect_deterministic_witness :
    detect sampleConfig envOk sampleBytes (3 / 10) =
      detect sampleConfig envOkLater sampleBytes (3 / 10) :=
  detect_deterministic sampleConfig envOk envOkLater sampleBytes (3 / 10) rfl rfl rfl rfl

/-- C6: when the model load fails, `acquire` raises nothing and reports the
failure only by returning `none`, and `detect` on any valid image still
returns successfully with the executed strategy recorded as `FALLBACK`. -/
theorem load_failure_degrades_to_fallback (cfg : Config) (env : Env)
    (bytes : List Nat) (t : Rat) (img : InputImage) (e : LoadError)
    (hl : env.loadFailure = some e) (hd : decodeImage bytes = some img) :
    acquire env = none ∧
    detect cfg env bytes t = .ok (detectRun cfg env img t) ∧
    (detectRun cfg env img t).1.model_type = .FALLBACK := by
  have ha : acquire env = none := by simp [acquire, loadModel, hl]
  refine ⟨ha, detect_ok_run cfg env bytes t hd, ?_⟩
  show selectStrategy env = .FALLBACK
  simp [selectStrategy, ha]

/-- Witness for C6: the sample run under a forced load failure, with its
concrete fallback result. -/
theorem load_failure_degrades_to_fallback_witness :
    (acquire envLoadFail = none ∧
      detect sampleConfig envLoadFail sampleBytes (3 / 10) =
        .ok (detectRun sampleConfig envLoadFail sampleImage (3 / 10)) ∧
      (detectRun sampleConfig envLoadFail sampleImage (3 / 10)).1.model_type = .FALLBACK) ∧
    detect sampleConfig envLoadFail sampleBytes (3 / 10) = .ok (fallbackSampleResult, sampleMask) :=
  ⟨load_failure_degrades_to_fallback sampleConfig envLoadFail sampleBytes (3 / 10)
      sampleImage .missingArtifact rfl decode_sample,
   sample_detect_run_loadfail⟩

/-- C7: the fallback heuristic detector never raises — it is a total
function whose output always matches the image's extent, and on any
internal failure of its four-signal pipeline it degrades to the all-zero
"no detection" map instead of propagating the error. -/
theorem fallback_error_safety (cfg : Config) (env : Env) (img : InputImage) :
    (fallbackDetect cfg env img).length = img.pixels.length ∧
    (∀ msg, fallbackPipeline cfg env img = .error msg →
      fallbackDetect cfg env img = List.replicate img.pixels.length 0) := by
  refine ⟨length_fallbackDetect cfg env img, ?_⟩
  intro msg h
  unfold fallbackDetect
  rw [h]
  rfl

/-- Witness for C7: a broken fallback pipeline degrades to the zero map. -/
theorem fallback_error_safety_witness :
    (fallbackDetect sampleConfig envFallbackFail sampleImage).length =
      sampleImage.pixels.length ∧
    fallbackDetect sampleConfig envFallbackFail sampleImage =
      List.replicate sampleImage.pixels.length 0 :=
  ⟨(fallback_error_safety sampleConfig envFallbackFail sampleImage).1,
   (fallback_error_safety sampleConfig envFallbackFail sampleImage).2 "signal failure" rfl⟩

/-- C8: every supervisor transition lies on the specified graph
(`UNINITIALIZED → LOADING → READY`, `LOADING → UNAVAILABLE`, and the
cool-down retry `UNAVAILABLE → LOADING`, besides self-loops), `READY` is
never left once entered, and `LOADING` is entered only from
`UNINITIALIZED` or from `UNAVAILABLE` via a retry after the cool-down has
elapsed. -/
theorem supervisor_transition_graph (cfg : Config) (s : SupState) (e : SupEvent) :
    allowedEdge s.phase (step cfg s e).phase ∧
    (s.phase = .READY → step cfg s e = s) ∧
    ((step cfg s e).phase = .LOADING →
      s.phase = .LOADING ∨ s.phase = .UNINITIALIZED ∨
      (s.phase = .UNAVAILABLE ∧ s.cooldown = 0 ∧ e = .retry)) := by
  obtain ⟨ph, cd⟩ := s
  cases ph <;> cases e <;> by_cases hc : cd = 0 <;>
    simp [step, allowedEdge, hc]

/-- Witness for C8: `READY` absorbs a load-failure event, and the retry out
of a cooled-down `UNAVAILABLE` is an admitted entry into `LOADING`. -/
theorem supervisor_transition_graph_witness :
    step sampleConfig ⟨.READY, 5⟩ .loadFailed = ⟨.READY, 5⟩ ∧
    (SupPhase.UNAVAILABLE = .LOADING ∨ SupPhase.UNAVAILABLE = .UNINITIALIZED ∨
      (SupPhase.UNAVAILABLE = .UNAVAILABLE ∧ (0 : Nat) = 0 ∧ SupEvent.retry = .retry)) :=
  ⟨(supervisor_transition_graph sampleConfig ⟨.READY, 5⟩ .loadFailed).2.1 rfl,
   (supervisor_transition_graph sampleConfig ⟨.UNAVAILABLE, 0⟩ .retry).2.2 (by decide)⟩

end Engine

namespace Upload

/-- C9: a selected file whose declared MIME type is not PNG/JPEG/JPG/TIFF
or whose size exceeds 50 MiB is rejected by `handleFileChange` — an error
message is set, the stored file and result are untouched, and since every
state reachable through file selections stores only validated files, no
upload request is ever sent for the rejected file; an accepted file is
stored with the error cleared and any previous result discarded. -/
theorem file_validation_guards_upload (f : JsFile) (s : UploadState)
    (events : List (Option JsFile)) :
    (fileAccepted f = false →
      (handleFileChange (some f) s).file = s.file ∧
      (handleFileChange (some f) s).error ≠ none ∧
      (handleFileChange (some f) s).result = s.result ∧
      handleSubmit (runEvents events) ≠ some f) ∧
    (fileAccepted f = true →
      handleFileChange (some f) s =
        { s with file := some f, error := none, result := none }) := by
  constructor
  · intro hrej
    have hmain : (handleFileChange (some f) s).file = s.file ∧
        (handleFileChange (some f) s).error ≠ none ∧
        (handleFileChange (some f) s).result = s.result := by
      by_cases hm : f.mime ∈ validTypes
      · have hsz : sizeLimit < f.size := by
          by_contra hsz
          have hacc : fileAccepted f = true := by
            simp only [fileAccepted, Bool.and_eq_true, decide_eq_true_eq]
            refine ⟨by simpa using hm, by omega⟩
          rw [hacc] at hrej
          exact Bool.noConfusion hrej
        simp [handleFileChange, hm, hsz]
      · simp [handleFileChange, hm]
    refine ⟨hmain.1, hmain.2.1, hmain.2.2, ?_⟩
    intro hsub
    rw [handleSubmit] at hsub
    have hacc := runEvents_valid events f hsub
    rw [hacc] at hrej
    exact Bool.noConfusion hrej
  · intro hacc
    simp only [fileAccepted, Bool.and_eq_true, decide_eq_true_eq] at hacc
    have hm : f.mime ∈ validTypes := by simpa using hacc.1
    have hsz : ¬ sizeLimit < f.size := by
      have := hacc.2
      omega
    simp [handleFileChange, hm, hsz]

/-- Witness for C9: a text file is rejected and never uploaded; a small PNG
is accepted. -/
theorem file_validation_guards_upload_witness :
    ((handleFileChange (some badFile) initState).file = initState.file ∧
      (handleFileChange (some badFile) initState).error ≠ none ∧
      (handleFileChange (some badFile) initState).result = initState.result ∧
      handleSubmit (runEvents [some badFile]) ≠ some badFile) ∧
    handleFileChange (some goodFile) initState =
      { initState with file := some goodFile, error := none, result := none } :=
  ⟨(file_validation_guards_upload badFile initState [some badFile]).1 (by decide),
   (file_validation_guards_upload goodFile initState []).2 (by decide)⟩

end Upload

namespace Dashboard

/-- C10 counterexample: a single demand zone with positive demand and zero
capacity drives the capacity-utilization statistic to Infinity — it is not
a finite number, refuting the claim as stated. -/
theorem capacity_utilization_infinite_on_zero_capacity :
    capacityUtilization [⟨1, 0⟩] = .posInf ∧
    (capacityUtilization [⟨1, 0⟩]).isFinite = false := by
  have hd : totalDemand [⟨1, 0⟩] = 1 := by norm_num [totalDemand]
  have hc : totalCapacity [⟨1, 0⟩] = 0 := by norm_num [totalCapacity]
  constructor <;>
    simp [capacityUtilization, hd, hc, jsDiv, jsMul100, JSNum.isFinite]

/-- C10 (amended): provided the summed capacity is nonzero whenever the
summed demand is positive, the capacity-utilization statistic is a finite
number: it equals 0 when the summed demand is not positive, and
100 × total demand / total capacity when the summed demand is positive. -/
theorem capacity_utilization_characterization (zs : List Zone)
    (hcap : 0 < totalDemand zs → totalCapacity zs ≠ 0) :
    (capacityUtilization zs).isFinite = true ∧
    capacityUtilization zs =
      (if 0 < totalDemand zs then
        .num (100 * totalDemand zs / totalCapacity zs)
      else .num 0) := by
  by_cases hd : 0 < totalDemand zs
  · have hc := hcap hd
    constructor
    · simp [capacityUtilization, hd, jsDiv, hc, jsMul100, JSNum.isFinite]
    · simp only [capacityUtilization, hd, if_true, jsDiv, hc, ne_eq,
        not_false_eq_true, if_true, jsMul100, JSNum.num.injEq]
      ring
  · constructor <;> simp [capacityUtilization, hd, JSNum.isFinite]

/-- Witness for C10: one zone with demand 2 and capacity 4 yields the
finite value 50%. -/
theorem capacity_utilization_characterization_witness :
    (capacityUtilization [⟨2, 4⟩]).isFinite = true ∧
    capacityUtilization [⟨2, 4⟩] =
      (if 0 < totalDemand [⟨2, 4⟩] then
        .num (100 * totalDemand [⟨2, 4⟩] / totalCapacity [⟨2, 4⟩])
      else .num 0) :=
  capacity_utilization_characterization [⟨2, 4⟩]
    (fun _ => by norm_num [totalCapacity])

end Dashboard

end SewageMapAI
